import Mathlib

/-!
Verification development for the notion-bot repository core:
the retry executor (`src/core/notion/rate_limiter.py`), the
database/data-source resolver (`src/core/notion/database_resolver.py`)
and the metrics collector (`src/core/monitoring/metrics.py`),
shallowly embedded in Lean.  Python floats are modelled as rationals,
dictionaries as association lists, and the upstream Notion client as an
oracle indexed by a global call counter.
-/

namespace NotionBot

/-- Errors a wrapped operation (or the wrapper) can raise.
`api` models `notion_client.APIResponseError` with its `status` and
`str(body)`; `rateLimit` models `src.core.errors.exceptions.RateLimitError`
(a `DomainException`, not an `APIResponseError` subclass); `other` models
any other Python exception. -/
inductive PyErr where
  | api (status : Nat) (body : String)
  | rateLimit (msg : String)
  | other (msg : String)
deriving DecidableEq, Repr

/-- Occurrence of `pat` as a contiguous subsequence of `l`: a
structural scan checking `pat` as a prefix at every suffix. -/
def containsSubList : List Char → List Char → Bool
  | [], pat => pat.isEmpty
  | c :: rest, pat => pat.isPrefixOf (c :: rest) || containsSubList rest pat

/-- Python `pat in s` on strings, over the underlying character
lists. -/
def containsSub (s pat : String) : Bool :=
  containsSubList s.data pat.data

/-- Python `s.lower()` (the marker `"rate_limit"` is ASCII, so the
ASCII `Char.toLower` is adequate here). -/
def lowerStr (s : String) : String :=
  String.mk (s.data.map Char.toLower)

/-- The rate-limit test of `with_retry` line 52:
`e.status == 429 or "rate_limit" in str(e.body).lower()`. -/
def isRateLimitErr (status : Nat) (body : String) : Bool :=
  status == 429 || containsSub (lowerStr body) "rate_limit"

/-- Whether a raised error takes the rate-limit branch of `with_retry`:
it must be an `APIResponseError` passing `isRateLimitErr`. -/
def errTakesRLBranch : PyErr → Bool
  | .api status body => isRateLimitErr status body
  | _ => false

/-- The retry policy: the four keyword arguments of `with_retry`. -/
structure RetryPolicy where
  max_retries : Nat
  initial_delay : ℚ
  max_delay : ℚ
  jitter_factor : ℚ
deriving Repr

/-- The default arguments of `with_retry`. -/
def defaultPolicy : RetryPolicy := ⟨4, 1, 8, 1/5⟩

/-- Observable events of one execution of the `with_retry` wrapper, in
order: a metrics api-call increment, an invocation of the wrapped
function at a given 0-indexed attempt, a metrics rate-limit-hit
increment, and an `asyncio.sleep` for a given delay. -/
inductive REvent where
  | callMetric
  | invokeOp (i : Nat)
  | rlMetric
  | sleepFor (d : ℚ)
deriving DecidableEq, Repr

/-- Backoff base for a 0-indexed attempt, lines 58-61:
`min(initial_delay * (2 ** attempt), max_delay)`. -/
def backoffBase (pol : RetryPolicy) (attempt : Nat) : ℚ :=
  min (pol.initial_delay * 2 ^ attempt) pol.max_delay

/-- The slept delay for a retried attempt, lines 58-66: the capped
exponential base, plus symmetric jitter floored at zero when
`jitter_factor > 0`.  `jit attempt` is the draw of
`random.uniform(-1, 1)` used at that attempt. -/
def delayFor (pol : RetryPolicy) (jit : Nat → ℚ) (attempt : Nat) : ℚ :=
  let delay := backoffBase pol attempt
  if pol.jitter_factor > 0 then
    max 0 (delay + delay * pol.jitter_factor * jit attempt)
  else delay

/-- The message of the `RateLimitError` raised on exhaustion, line 80. -/
def rateLimitMsg : String :=
  "Notion API rate limit exceeded. Please try again later."

/-- The retry loop of `with_retry` (lines 43-96), one step per loop
iteration.  `op i` is the outcome of the wrapped coroutine at 0-indexed
attempt `i`; `fuel` is the number of remaining loop iterations
(`max_retries + 1 - attempt`).  Returns the ordered event trace and the
final outcome.  The `fuel = 0` case models the unreachable code after
the `for` loop (line 96). -/
def withRetryGo {α : Type} (pol : RetryPolicy) (op : Nat → Except PyErr α)
    (jit : Nat → ℚ) : Nat → Nat → List REvent × Except PyErr α
  | _, 0 => ([], .error (.other "Unexpected error in retry decorator"))
  | attempt, fuel + 1 =>
    match op attempt with
    | .ok v => ([.callMetric, .invokeOp attempt], .ok v)
    | .error (.api status body) =>
      if isRateLimitErr status body then
        if attempt < pol.max_retries then
          let d := delayFor pol jit attempt
          let rest := withRetryGo pol op jit (attempt + 1) fuel
          (.callMetric :: .invokeOp attempt :: .rlMetric :: .sleepFor d :: rest.1,
           rest.2)
        else
          ([.callMetric, .invokeOp attempt, .rlMetric],
           .error (.rateLimit rateLimitMsg))
      else
        ([.callMetric, .invokeOp attempt], .error (.api status body))
    | .error e => ([.callMetric, .invokeOp attempt], .error e)

/-- One full execution of the `with_retry`-wrapped function: the loop
starts at attempt 0 with `max_retries + 1` iterations available. -/
def with_retry {α : Type} (pol : RetryPolicy) (op : Nat → Except PyErr α)
    (jit : Nat → ℚ) : List REvent × Except PyErr α :=
  withRetryGo pol op jit 0 (pol.max_retries + 1)

/-- Number of invocations of the wrapped operation in a trace. -/
def countInvoke (evs : List REvent) : Nat :=
  evs.countP fun e => match e with | .invokeOp _ => true | _ => false

/-- Number of api-call metric increments in a trace. -/
def countCall (evs : List REvent) : Nat :=
  evs.countP fun e => match e with | .callMetric => true | _ => false

/-- Number of rate-limit-hit metric increments in a trace. -/
def countRL (evs : List REvent) : Nat :=
  evs.countP fun e => match e with | .rlMetric => true | _ => false

/-- Whether the operation's outcome at attempt `i` takes the rate-limit
branch of the wrapper (an `APIResponseError` passing the test). -/
def opRLfail {α : Type} (op : Nat → Except PyErr α) (i : Nat) : Bool :=
  match op i with
  | .error e => errTakesRLBranch e
  | .ok _ => false

/-- The slept delays of a trace, in order. -/
def delays (evs : List REvent) : List ℚ :=
  evs.filterMap fun e => match e with | .sleepFor d => some d | _ => none

/-- The attempt indices at which the operation was invoked, in order. -/
def invokeIdxs (evs : List REvent) : List Nat :=
  evs.filterMap fun e => match e with | .invokeOp i => some i | _ => none

/-! ## Resolver embedding (`database_resolver.py`) -/

/-- One element of a `data_sources` array: a JSON object that may or may
not carry an `id` and a `name` key (`data_sources[0]['id']` raises
`KeyError` when `id` is absent; `name` is read with a default). -/
structure DataSourceRef where
  id : Option String
  name : Option String
deriving DecidableEq, Repr

/-- The claim-relevant part of a property value: the `id` and `type`
keys, each possibly absent (read with `.get`). -/
structure PropVal where
  id : Option String
  type : Option String
deriving DecidableEq, Repr

/-- A schema / properties dictionary: property name to property value. -/
abbrev Schema : Type := List (String × PropVal)

/-- The claim-relevant part of a `databases.retrieve` response.
`data_sources` and `properties` are read with `.get(_, [])` /
`.get(_, {})`, so an absent key is identified with the empty list.
`title` is read with `.get('title', [{}])`, so absence (`none`) differs
from an explicitly empty array (`some []`, on which `[0]` raises
`IndexError`); each element contributes an optional `plain_text`. -/
structure DbInfo where
  data_sources : List DataSourceRef
  title : Option (List (Option String))
  properties : Schema
deriving DecidableEq, Repr

/-- A page returned by `data_sources.query`: its `properties` dict,
read with `.get("properties", {})`. -/
structure Page where
  properties : Schema
deriving DecidableEq, Repr

/-- Evaluation of `db_info.get('title', [{}])[0].get('plain_text',
'Untitled')` (lines 60 and 72): absence of the key yields the default
singleton, a present empty array raises `IndexError`. -/
def titleText : Option (List (Option String)) → Except PyErr String
  | none => .ok "Untitled"
  | some [] => .error (.other "IndexError")
  | some (t :: _) => .ok (t.getD "Untitled")

/-- A cache entry (`self._cache[database_id]`): a dict whose keys vary
by the site that wrote it, hence every field optional. -/
structure CacheEntry where
  database_id : Option String
  data_source_id : Option String
  name : Option String
  title : Option String
  properties : Option Schema
deriving DecidableEq, Repr

/-- Python `dict` lookup on an association list. -/
def dictGet {κ α : Type} [DecidableEq κ] : List (κ × α) → κ → Option α
  | [], _ => none
  | (k, v) :: rest, key => if k = key then some v else dictGet rest key

/-- Python `dict` assignment on an association list: replace the
existing binding or append a new one. -/
def dictInsert {κ α : Type} [DecidableEq κ] (key : κ) (v : α) :
    List (κ × α) → List (κ × α)
  | [] => [(key, v)]
  | (k, w) :: rest =>
    if k = key then (key, v) :: rest else (k, w) :: dictInsert key v rest

/-- Read-modify-write of one key of a dict, with the defaultdict
default used when the key is absent. -/
def dictUpd {κ α : Type} [DecidableEq κ] (key : κ) (f : α → α)
    (dflt : α) (m : List (κ × α)) : List (κ × α) :=
  dictInsert key (f ((dictGet m key).getD dflt)) m

/-- The upstream Notion client, as an oracle over a global call index:
`retrieve n id` is the outcome of the `n`-th upstream call when it is
`client.databases.retrieve(database_id=id)`, and `query n ds ps` when it
is `client.data_sources.query(data_source_id=ds, page_size=ps)`. -/
structure Upstream where
  retrieve : Nat → String → Except PyErr DbInfo
  query : Nat → String → Nat → Except PyErr (List Page)

/-- Mutable state of a `DatabaseResolver` run: the `_cache` dict plus
the number of upstream calls performed so far. -/
structure RState where
  cache : List (String × CacheEntry)
  fetches : Nat
deriving Repr

/-- `DatabaseResolver.resolve_database_id` (lines 18-80).  Cache hit
returns `cached.get('data_source_id', database_id)`; cache miss fetches
the database info; the `except Exception` handler (lines 77-80) turns
any failure — the fetch itself, the `KeyError` of `data_sources[0]['id']`
or the `IndexError` of the title expression — into returning the
original id without caching. -/
def resolve_database_id (O : Upstream) (database_id : String)
    (s : RState) : Except PyErr String × RState :=
  match dictGet s.cache database_id with
  | some cached => (.ok (cached.data_source_id.getD database_id), s)
  | none =>
    let n := s.fetches
    let s1 : RState := ⟨s.cache, n + 1⟩
    match O.retrieve n database_id with
    | .error _ => (.ok database_id, s1)
    | .ok db_info =>
      match db_info.data_sources with
      | ds0 :: _ =>
        match ds0.id with
        | none => (.ok database_id, s1)
        | some data_source_id =>
          let data_source_name := ds0.name.getD "Untitled"
          match titleText db_info.title with
          | .error _ => (.ok database_id, s1)
          | .ok t =>
            let entry : CacheEntry :=
              ⟨some database_id, some data_source_id,
               some data_source_name, some t, none⟩
            (.ok data_source_id,
             ⟨dictInsert database_id entry s1.cache, s1.fetches⟩)
      | [] =>
        match titleText db_info.title with
        | .error _ => (.ok database_id, s1)
        | .ok t =>
          let entry : CacheEntry :=
            ⟨some database_id, some database_id, none, some t, none⟩
          (.ok database_id,
           ⟨dictInsert database_id entry s1.cache, s1.fetches⟩)

/-- `DatabaseResolver._infer_schema_from_pages` (lines 125-184): query
up to 5 pages of the data source; on failure or no pages or an empty
first-page properties dict return the empty schema, else rebuild the
`{id, type}` map from the first page's properties.  The method catches
all its own exceptions (lines 182-184), so it returns plainly. -/
def infer_schema_from_pages (O : Upstream) (data_source_id : String)
    (s : RState) : Schema × RState :=
  let n := s.fetches
  let s1 : RState := ⟨s.cache, n + 1⟩
  match O.query n data_source_id 5 with
  | .error _ => ([], s1)
  | .ok pages =>
    match pages with
    | [] => ([], s1)
    | first_page :: _ =>
      if first_page.properties.isEmpty then ([], s1)
      else
        (first_page.properties.map fun p => (p.1, ⟨p.2.id, p.2.type⟩), s1)

/-- Lines 113-117 of `get_database_schema`: store the obtained
properties in the cache, updating the existing entry when present. -/
def cacheProps (database_id : String) (props : Schema) (s : RState) :
    RState :=
  match dictGet s.cache database_id with
  | some entry =>
    ⟨dictInsert database_id { entry with properties := some props } s.cache,
     s.fetches⟩
  | none =>
    ⟨dictInsert database_id ⟨none, none, none, none, some props⟩ s.cache,
     s.fetches⟩

/-- The no-cached-properties path of `get_database_schema` (lines
100-123): resolve, fetch the database info, fall back to page sampling
when the reported properties are empty, cache and return; the `except`
handler (lines 121-123) turns a failing fetch into an empty dict
without caching. -/
def getSchemaUncached (O : Upstream) (database_id : String)
    (s : RState) : Except PyErr Schema × RState :=
  match resolve_database_id O database_id s with
  | (.error e, s1) => (.error e, s1)
  | (.ok source_id, s1) =>
    let n := s1.fetches
    let s2 : RState := ⟨s1.cache, n + 1⟩
    match O.retrieve n database_id with
    | .error _ => (.ok [], s2)
    | .ok db_info =>
      if db_info.properties.isEmpty then
        let r := infer_schema_from_pages O source_id s2
        (.ok r.1, cacheProps database_id r.1 r.2)
      else
        (.ok db_info.properties, cacheProps database_id db_info.properties s2)

/-- `DatabaseResolver.get_database_schema` (lines 82-123).  Cache hit
requires a `'properties'` key in the entry; otherwise take the
uncached path. -/
def get_database_schema (O : Upstream) (database_id : String)
    (s : RState) : Except PyErr Schema × RState :=
  match dictGet s.cache database_id with
  | some cached =>
    match cached.properties with
    | some props => (.ok props, s)
    | none => getSchemaUncached O database_id s
  | none => getSchemaUncached O database_id s

/-- `DatabaseResolver.get_title_property_name` (lines 186-206): first
property of the schema whose `type` is `'title'`, else `"Name"`. -/
def get_title_property_name (O : Upstream) (database_id : String)
    (s : RState) : Except PyErr String × RState :=
  match get_database_schema O database_id s with
  | (.error e, s1) => (.error e, s1)
  | (.ok schema, s1) =>
    match schema.find? (fun p => p.2.type == some "title") with
    | some p => (.ok p.1, s1)
    | none => (.ok "Name", s1)

/-! ## Metrics collector embedding (`metrics.py`) -/

/-- State of `MetricsCollector`: per-endpoint duration deques
(`maxlen=1000`), per-endpoint status-code counters, and the two
counters behind `notion_api_calls_total` / `rate_limit_hits_total`. -/
structure MetricsCollector where
  request_durations : List (String × List ℚ)
  status_codes : List (String × List (Nat × Nat))
  notion_api_calls : Nat
  rate_limit_hits : Nat
deriving Repr

/-- The freshly constructed collector. -/
def MetricsCollector.init : MetricsCollector := ⟨[], [], 0, 0⟩

/-- Append to a `deque(maxlen=1000)`: the oldest element is dropped
once the deque is full. -/
def dequeAppend (d : ℚ) (l : List ℚ) : List ℚ :=
  if l.length < 1000 then l ++ [d] else l.tail ++ [d]

/-- The four mutating operations of `MetricsCollector` (each guarded by
the collector's lock in the source; the getters do not mutate). -/
inductive MOp where
  | recordDuration (endpoint : String) (duration : ℚ)
  | recordStatus (endpoint : String) (code : Nat)
  | incApiCalls
  | incRateLimitHits

/-- Effect of one `MetricsCollector` operation on the state:
`record_request_duration`, `record_status_code`,
`increment_notion_api_calls` and `increment_rate_limit_hits`. -/
def mstep : MOp → MetricsCollector → MetricsCollector
  | .recordDuration endpoint duration, m =>
    { m with request_durations :=
        dictUpd endpoint (dequeAppend duration) [] m.request_durations }
  | .recordStatus endpoint code, m =>
    { m with status_codes :=
        dictUpd endpoint (dictUpd code (· + 1) 0) [] m.status_codes }
  | .incApiCalls, m => { m with notion_api_calls := m.notion_api_calls + 1 }
  | .incRateLimitHits, m => { m with rate_limit_hits := m.rate_limit_hits + 1 }

/-- The normal-operation interface of a `DatabaseResolver` (the spec
excludes `clear_cache`, a test-isolation helper, from normal
operation). -/
inductive ROp where
  | resolveOp (database_id : String)
  | schemaOp (database_id : String)
  | titleOp (database_id : String)

/-- State effect of one resolver operation. -/
def runOp (O : Upstream) : ROp → RState → RState
  | .resolveOp database_id, s => (resolve_database_id O database_id s).2
  | .schemaOp database_id, s => (get_database_schema O database_id s).2
  | .titleOp database_id, s => (get_title_property_name O database_id s).2

/-! ## Concrete instances used by witnesses and counterexamples -/

/-- An operation that is rate limited on its first two attempts and
succeeds on the third. -/
def op2 : Nat → Except PyErr Nat :=
  fun i => if i < 2 then .error (.api 429 "") else .ok 42

/-- The degenerate jitter draw (`random.uniform(-1,1)` returning 0). -/
def jit0 : Nat → ℚ := fun _ => 0

/-- The policy of the spec's retry walkthrough:
`max_retries=2, initial_delay=1.0, max_delay=8.0, jitter=0`. -/
def polC3 : RetryPolicy := ⟨2, 1, 8, 0⟩

/-- An operation that always fails with a non-rate-limit error. -/
def opBoom : Nat → Except PyErr Nat := fun _ => .error (.other "boom")

/-- An operation that is rate limited on every attempt (status 500 but
a rate-limit marker in the body). -/
def opRL : Nat → Except PyErr Nat :=
  fun _ => .error (.api 500 "Rate_Limit reached")

/-- An upstream whose metadata fetch always succeeds with one data
source named after the database, and whose query always fails. -/
def Ogood : Upstream :=
  ⟨fun _ database_id =>
      .ok ⟨[⟨some ("ds-" ++ database_id), some "Tasks"⟩], none, []⟩,
   fun _ _ _ => .error (.other "boom")⟩

/-- An upstream on which every call fails. -/
def Ofail : Upstream :=
  ⟨fun _ _ => .error (.other "boom"), fun _ _ _ => .error (.other "boom")⟩

/-- An upstream reporting zero data sources and an explicitly empty
title array (`'title': []`). -/
def OC7 : Upstream :=
  ⟨fun _ _ => .ok ⟨[], some [], []⟩, fun _ _ _ => .error (.other "boom")⟩

/-- An upstream reporting zero data sources, with the `title` key
absent. -/
def OC7b : Upstream :=
  ⟨fun _ _ => .ok ⟨[], none, []⟩, fun _ _ _ => .error (.other "boom")⟩

/-- Three sampled pages, the first carrying a `Name` title field and a
`Status` status field. -/
def pgsC6 : List Page :=
  [⟨[("Name", ⟨some "t1", some "title"⟩), ("Status", ⟨some "s1", some "status"⟩)]⟩,
   ⟨[]⟩, ⟨[]⟩]

/-- An upstream whose database reports a data source but empty
container-level properties, and whose query finds the three pages. -/
def OC6 : Upstream :=
  ⟨fun _ _ => .ok ⟨[⟨some "ds-2", none⟩], none, []⟩,
   fun _ _ _ => .ok pgsC6⟩

/-- An upstream with container-level properties that lack any
title-typed field. -/
def ONoTitle : Upstream :=
  ⟨fun _ _ => .ok ⟨[⟨some "ds-3", none⟩], none,
      [("Status", ⟨some "s1", some "status"⟩)]⟩,
   fun _ _ _ => .error (.other "boom")⟩

/-- An upstream whose metadata fetch succeeds (one data source `ds`,
empty container properties) but whose sampling query always raises. -/
def OC10 : Upstream :=
  ⟨fun _ _ => .ok ⟨[⟨some "ds", none⟩], none, []⟩,
   fun _ _ _ => .error (.other "boom")⟩

/-- The empty resolver state. -/
def s0 : RState := ⟨[], 0⟩

/-! ## Dictionary lemmas -/

theorem dictGet_dictInsert_self {κ α : Type} [DecidableEq κ] (key : κ)
    (v : α) (m : List (κ × α)) :
    dictGet (dictInsert key v m) key = some v := by
  induction m with
  | nil => simp [dictInsert, dictGet]
  | cons kv rest ih =>
    obtain ⟨k, w⟩ := kv
    by_cases h : k = key
    · simp [dictInsert, dictGet, h]
    · simp [dictInsert, dictGet, h, ih]

theorem dictGet_dictInsert_ne {κ α : Type} [DecidableEq κ]
    (key key' : κ) (v : α) (m : List (κ × α)) (h : key ≠ key') :
    dictGet (dictInsert key v m) key' = dictGet m key' := by
  induction m with
  | nil => simp [dictInsert, dictGet, h]
  | cons kv rest ih =>
    obtain ⟨k, w⟩ := kv
    by_cases hk : k = key
    · subst hk
      simp [dictInsert, dictGet, h]
    · simp [dictInsert, dictGet, hk, ih]

/-! ## Rewrite lemmas for the retry loop branches -/

theorem withRetryGo_ok {α : Type} (pol : RetryPolicy)
    (op : Nat → Except PyErr α) (jit : Nat → ℚ) (attempt f : Nat)
    (v : α) (h : op attempt = .ok v) :
    withRetryGo pol op jit attempt (f + 1)
      = ([.callMetric, .invokeOp attempt], .ok v) := by
  simp [withRetryGo, h]

theorem withRetryGo_retry {α : Type} (pol : RetryPolicy)
    (op : Nat → Except PyErr α) (jit : Nat → ℚ) (attempt f : Nat)
    (st : Nat) (b : String) (h : op attempt = .error (.api st b))
    (hrl : isRateLimitErr st b = true) (hlt : attempt < pol.max_retries) :
    withRetryGo pol op jit attempt (f + 1)
      = (.callMetric :: .invokeOp attempt :: .rlMetric ::
           .sleepFor (delayFor pol jit attempt) ::
           (withRetryGo pol op jit (attempt + 1) f).1,
         (withRetryGo pol op jit (attempt + 1) f).2) := by
  simp [withRetryGo, h, hrl, hlt]

theorem withRetryGo_exhaust {α : Type} (pol : RetryPolicy)
    (op : Nat → Except PyErr α) (jit : Nat → ℚ) (attempt f : Nat)
    (st : Nat) (b : String) (h : op attempt = .error (.api st b))
    (hrl : isRateLimitErr st b = true) (hge : ¬ attempt < pol.max_retries) :
    withRetryGo pol op jit attempt (f + 1)
      = ([.callMetric, .invokeOp attempt, .rlMetric],
         .error (.rateLimit rateLimitMsg)) := by
  simp [withRetryGo, h, hrl, hge]

theorem withRetryGo_raise {α : Type} (pol : RetryPolicy)
    (op : Nat → Except PyErr α) (jit : Nat → ℚ) (attempt f : Nat)
    (e : PyErr) (h : op attempt = .error e)
    (hnot : errTakesRLBranch e = false) :
    withRetryGo pol op jit attempt (f + 1)
      = ([.callMetric, .invokeOp attempt], .error e) := by
  cases e with
  | api st b =>
    simp only [errTakesRLBranch] at hnot
    simp [withRetryGo, h, hnot]
  | rateLimit m => simp [withRetryGo, h]
  | other m => simp [withRetryGo, h]

/-! ## Retry loop inductions -/

theorem opRLfail_elim {α : Type} (op : Nat → Except PyErr α) (i : Nat)
    (h : opRLfail op i = true) :
    ∃ st b, op i = .error (.api st b) ∧ isRateLimitErr st b = true := by
  unfold opRLfail at h
  cases hop : op i with
  | ok v => rw [hop] at h; simp at h
  | error e =>
    rw [hop] at h
    cases e with
    | api st b => exact ⟨st, b, rfl, h⟩
    | rateLimit m => simp [errTakesRLBranch] at h
    | other m => simp [errTakesRLBranch] at h

theorem countInvoke_go_le {α : Type} (pol : RetryPolicy)
    (op : Nat → Except PyErr α) (jit : Nat → ℚ) :
    ∀ fuel attempt, countInvoke (withRetryGo pol op jit attempt fuel).1 ≤ fuel := by
  intro fuel
  induction fuel with
  | zero => intro attempt; simp [withRetryGo, countInvoke]
  | succ f ih =>
    intro attempt
    cases h : op attempt with
    | ok v =>
      rw [withRetryGo_ok pol op jit attempt f v h]
      simp [countInvoke, List.countP_cons]
    | error e =>
      cases e with
      | api st b =>
        by_cases hrl : isRateLimitErr st b = true
        · by_cases hlt : attempt < pol.max_retries
          · rw [withRetryGo_retry pol op jit attempt f st b h hrl hlt]
            have hrest := ih (attempt + 1)
            simp only [countInvoke, List.countP_cons] at hrest ⊢
            simp
            omega
          · rw [withRetryGo_exhaust pol op jit attempt f st b h hrl hlt]
            simp [countInvoke, List.countP_cons]
        · have hrl' : isRateLimitErr st b = false := by
            revert hrl; cases isRateLimitErr st b <;> simp
          rw [withRetryGo_raise pol op jit attempt f _ h
              (by simp [errTakesRLBranch, hrl'])]
          simp [countInvoke, List.countP_cons]
      | rateLimit m =>
        rw [withRetryGo_raise pol op jit attempt f _ h
            (by simp [errTakesRLBranch])]
        simp [countInvoke, List.countP_cons]
      | other m =>
        rw [withRetryGo_raise pol op jit attempt f _ h
            (by simp [errTakesRLBranch])]
        simp [countInvoke, List.countP_cons]

theorem go_allRL {α : Type} (pol : RetryPolicy) (op : Nat → Except PyErr α)
    (jit : Nat → ℚ)
    (H : ∀ i, ∃ st b, op i = .error (.api st b) ∧ isRateLimitErr st b = true) :
    ∀ fuel attempt, attempt + fuel = pol.max_retries + 1 → 1 ≤ fuel →
      (withRetryGo pol op jit attempt fuel).2 = .error (.rateLimit rateLimitMsg)
      ∧ countInvoke (withRetryGo pol op jit attempt fuel).1 = fuel := by
  intro fuel
  induction fuel with
  | zero => intro attempt _ h1; omega
  | succ f ih =>
    intro attempt hsum _
    obtain ⟨st, b, hop, hrl⟩ := H attempt
    by_cases hlt : attempt < pol.max_retries
    · rw [withRetryGo_retry pol op jit attempt f st b hop hrl hlt]
      have hrec := ih (attempt + 1) (by omega) (by omega)
      refine ⟨hrec.1, ?_⟩
      have hcnt := hrec.2
      simp only [countInvoke, List.countP_cons] at hcnt ⊢
      simp
      omega
    · rw [withRetryGo_exhaust pol op jit attempt f st b hop hrl hlt]
      have hf : f = 0 := by omega
      subst hf
      exact ⟨rfl, by simp [countInvoke, List.countP_cons]⟩

theorem go_outcome_src {α : Type} (pol : RetryPolicy)
    (op : Nat → Except PyErr α) (jit : Nat → ℚ) :
    ∀ fuel attempt, attempt + fuel = pol.max_retries + 1 → 1 ≤ fuel →
      (∀ v, (withRetryGo pol op jit attempt fuel).2 = .ok v → ∃ i, op i = .ok v)
      ∧ (∀ e, (withRetryGo pol op jit attempt fuel).2 = .error e →
          e = .rateLimit rateLimitMsg ∨ ∃ i, op i = .error e) := by
  intro fuel
  induction fuel with
  | zero => intro attempt _ h1; omega
  | succ f ih =>
    intro attempt hsum _
    cases h : op attempt with
    | ok v =>
      rw [withRetryGo_ok pol op jit attempt f v h]
      constructor
      · intro v' hv
        simp at hv
        exact ⟨attempt, by rw [h, hv]⟩
      · intro e he
        simp at he
    | error e =>
      cases e with
      | api st b =>
        by_cases hrl : isRateLimitErr st b = true
        · by_cases hlt : attempt < pol.max_retries
          · rw [withRetryGo_retry pol op jit attempt f st b h hrl hlt]
            exact ih (attempt + 1) (by omega) (by omega)
          · rw [withRetryGo_exhaust pol op jit attempt f st b h hrl hlt]
            constructor
            · intro v hv; simp at hv
            · intro e he
              simp at he
              left
              simp [he]
        · have hrl' : isRateLimitErr st b = false := by
            revert hrl; cases isRateLimitErr st b <;> simp
          rw [withRetryGo_raise pol op jit attempt f _ h
              (by simp [errTakesRLBranch, hrl'])]
          constructor
          · intro v hv; simp at hv
          · intro e he
            simp at he
            right
            exact ⟨attempt, by simp [h, he]⟩
      | rateLimit m =>
        rw [withRetryGo_raise pol op jit attempt f _ h
            (by simp [errTakesRLBranch])]
        constructor
        · intro v hv; simp at hv
        · intro e he
          simp at he
          right
          exact ⟨attempt, by simp [h, he]⟩
      | other m =>
        rw [withRetryGo_raise pol op jit attempt f _ h
            (by simp [errTakesRLBranch])]
        constructor
        · intro v hv; simp at hv
        · intro e he
          simp at he
          right
          exact ⟨attempt, by simp [h, he]⟩

theorem countCall_go_eq {α : Type} (pol : RetryPolicy)
    (op : Nat → Except PyErr α) (jit : Nat → ℚ) :
    ∀ fuel attempt,
      countCall (withRetryGo pol op jit attempt fuel).1
        = countInvoke (withRetryGo pol op jit attempt fuel).1 := by
  intro fuel
  induction fuel with
  | zero => intro attempt; simp [withRetryGo, countCall, countInvoke]
  | succ f ih =>
    intro attempt
    cases h : op attempt with
    | ok v =>
      rw [withRetryGo_ok pol op jit attempt f v h]
      simp [countCall, countInvoke, List.countP_cons]
    | error e =>
      cases e with
      | api st b =>
        by_cases hrl : isRateLimitErr st b = true
        · by_cases hlt : attempt < pol.max_retries
          · rw [withRetryGo_retry pol op jit attempt f st b h hrl hlt]
            have hrec := ih (attempt + 1)
            simp only [countCall, countInvoke, List.countP_cons] at hrec ⊢
            simp
            omega
          · rw [withRetryGo_exhaust pol op jit attempt f st b h hrl hlt]
            simp [countCall, countInvoke, List.countP_cons]
        · have hrl' : isRateLimitErr st b = false := by
            revert hrl; cases isRateLimitErr st b <;> simp
          rw [withRetryGo_raise pol op jit attempt f _ h
              (by simp [errTakesRLBranch, hrl'])]
          simp [countCall, countInvoke, List.countP_cons]
      | rateLimit m =>
        rw [withRetryGo_raise pol op jit attempt f _ h
            (by simp [errTakesRLBranch])]
        simp [countCall, countInvoke, List.countP_cons]
      | other m =>
        rw [withRetryGo_raise pol op jit attempt f _ h
            (by simp [errTakesRLBranch])]
        simp [countCall, countInvoke, List.countP_cons]

theorem countRL_go_eq {α : Type} (pol : RetryPolicy)
    (op : Nat → Except PyErr α) (jit : Nat → ℚ) :
    ∀ fuel attempt,
      countRL (withRetryGo pol op jit attempt fuel).1
        = (invokeIdxs (withRetryGo pol op jit attempt fuel).1).countP
            (fun i => opRLfail op i) := by
  intro fuel
  induction fuel with
  | zero => intro attempt; simp [withRetryGo, countRL, invokeIdxs]
  | succ f ih =>
    intro attempt
    cases h : op attempt with
    | ok v =>
      have hfa : opRLfail op attempt = false := by simp [opRLfail, h]
      rw [withRetryGo_ok pol op jit attempt f v h]
      simp [countRL, invokeIdxs, List.countP_cons, List.filterMap_cons, hfa]
    | error e =>
      cases e with
      | api st b =>
        by_cases hrl : isRateLimitErr st b = true
        · have hfa : opRLfail op attempt = true := by
            simp [opRLfail, h, errTakesRLBranch, hrl]
          by_cases hlt : attempt < pol.max_retries
          · rw [withRetryGo_retry pol op jit attempt f st b h hrl hlt]
            have hrec := ih (attempt + 1)
            simp only [countRL, invokeIdxs] at hrec ⊢
            simp [List.countP_cons, List.filterMap_cons, hfa]
            omega
          · rw [withRetryGo_exhaust pol op jit attempt f st b h hrl hlt]
            simp [countRL, invokeIdxs, List.countP_cons, List.filterMap_cons,
              hfa]
        · have hrl' : isRateLimitErr st b = false := by
            revert hrl; cases isRateLimitErr st b <;> simp
          have hfa : opRLfail op attempt = false := by
            simp [opRLfail, h, errTakesRLBranch, hrl']
          rw [withRetryGo_raise pol op jit attempt f _ h
              (by simp [errTakesRLBranch, hrl'])]
          simp [countRL, invokeIdxs, List.countP_cons, List.filterMap_cons,
            hfa]
      | rateLimit m =>
        have hfa : opRLfail op attempt = false := by
          simp [opRLfail, h, errTakesRLBranch]
        rw [withRetryGo_raise pol op jit attempt f _ h
            (by simp [errTakesRLBranch])]
        simp [countRL, invokeIdxs, List.countP_cons, List.filterMap_cons, hfa]
      | other m =>
        have hfa : opRLfail op attempt = false := by
          simp [opRLfail, h, errTakesRLBranch]
        rw [withRetryGo_raise pol op jit attempt f _ h
            (by simp [errTakesRLBranch])]
        simp [countRL, invokeIdxs, List.countP_cons, List.filterMap_cons, hfa]

theorem go_call_before_invoke {α : Type} (pol : RetryPolicy)
    (op : Nat → Except PyErr α) (jit : Nat → ℚ) :
    ∀ fuel attempt n i,
      ((withRetryGo pol op jit attempt fuel).1)[n]? = some (.invokeOp i) →
      ∃ m, n = m + 1 ∧
        ((withRetryGo pol op jit attempt fuel).1)[m]? = some REvent.callMetric := by
  intro fuel
  induction fuel with
  | zero => intro attempt n i hn; simp [withRetryGo] at hn
  | succ f ih =>
    intro attempt n i hn
    cases h : op attempt with
    | ok v =>
      rw [withRetryGo_ok pol op jit attempt f v h] at hn ⊢
      match n with
      | 0 => simp at hn
      | 1 => exact ⟨0, rfl, rfl⟩
      | n + 2 => simp at hn
    | error e =>
      cases e with
      | api st b =>
        by_cases hrl : isRateLimitErr st b = true
        · by_cases hlt : attempt < pol.max_retries
          · rw [withRetryGo_retry pol op jit attempt f st b h hrl hlt] at hn ⊢
            match n with
            | 0 => simp at hn
            | 1 => exact ⟨0, rfl, rfl⟩
            | 2 => simp at hn
            | 3 => simp at hn
            | n + 4 =>
              simp only [List.getElem?_cons_succ] at hn
              obtain ⟨m, hm, hcall⟩ := ih (attempt + 1) n i hn
              exact ⟨m + 4, by omega, by simpa using hcall⟩
          · rw [withRetryGo_exhaust pol op jit attempt f st b h hrl hlt] at hn ⊢
            match n with
            | 0 => simp at hn
            | 1 => exact ⟨0, rfl, rfl⟩
            | 2 => simp at hn
            | n + 3 => simp at hn
        · have hrl' : isRateLimitErr st b = false := by
            revert hrl; cases isRateLimitErr st b <;> simp
          rw [withRetryGo_raise pol op jit attempt f _ h
              (by simp [errTakesRLBranch, hrl'])] at hn ⊢
          match n with
          | 0 => simp at hn
          | 1 => exact ⟨0, rfl, rfl⟩
          | n + 2 => simp at hn
      | rateLimit m =>
        rw [withRetryGo_raise pol op jit attempt f _ h
            (by simp [errTakesRLBranch])] at hn ⊢
        match n with
        | 0 => simp at hn
        | 1 => exact ⟨0, rfl, rfl⟩
        | n + 2 => simp at hn
      | other m =>
        rw [withRetryGo_raise pol op jit attempt f _ h
            (by simp [errTakesRLBranch])] at hn ⊢
        match n with
        | 0 => simp at hn
        | 1 => exact ⟨0, rfl, rfl⟩
        | n + 2 => simp at hn

theorem go_delay_src {α : Type} (pol : RetryPolicy)
    (op : Nat → Except PyErr α) (jit : Nat → ℚ) :
    ∀ fuel attempt d, d ∈ delays (withRetryGo pol op jit attempt fuel).1 →
      ∃ i, d = delayFor pol jit i := by
  intro fuel
  induction fuel with
  | zero => intro attempt d hd; simp [withRetryGo, delays] at hd
  | succ f ih =>
    intro attempt d hd
    cases h : op attempt with
    | ok v =>
      rw [withRetryGo_ok pol op jit attempt f v h] at hd
      simp [delays] at hd
    | error e =>
      cases e with
      | api st b =>
        by_cases hrl : isRateLimitErr st b = true
        · by_cases hlt : attempt < pol.max_retries
          · rw [withRetryGo_retry pol op jit attempt f st b h hrl hlt] at hd
            simp only [delays, List.filterMap_cons] at hd
            simp at hd
            rcases hd with hd | hd
            · exact ⟨attempt, hd⟩
            · exact ih (attempt + 1) d (by simpa [delays] using hd)
          · rw [withRetryGo_exhaust pol op jit attempt f st b h hrl hlt] at hd
            simp [delays] at hd
        · have hrl' : isRateLimitErr st b = false := by
            revert hrl; cases isRateLimitErr st b <;> simp
          rw [withRetryGo_raise pol op jit attempt f _ h
              (by simp [errTakesRLBranch, hrl'])] at hd
          simp [delays] at hd
      | rateLimit m =>
        rw [withRetryGo_raise pol op jit attempt f _ h
            (by simp [errTakesRLBranch])] at hd
        simp [delays] at hd
      | other m =>
        rw [withRetryGo_raise pol op jit attempt f _ h
            (by simp [errTakesRLBranch])] at hd
        simp [delays] at hd

theorem delayFor_bounds (pol : RetryPolicy) (jit : Nat → ℚ) (i : Nat)
    (hj : pol.jitter_factor = 1/5) (h1 : 0 ≤ pol.initial_delay)
    (h2 : 0 ≤ pol.max_delay) (hl : -1 ≤ jit i) (hu : jit i ≤ 1) :
    max 0 (backoffBase pol i * (4/5)) ≤ delayFor pol jit i
    ∧ delayFor pol jit i ≤ backoffBase pol i * (6/5) := by
  have hb : (0 : ℚ) ≤ backoffBase pol i := by
    unfold backoffBase
    exact le_min (by positivity) h2
  unfold delayFor
  rw [hj]
  rw [if_pos (by norm_num)]
  constructor
  · refine max_le_max le_rfl ?_
    nlinarith [mul_le_mul_of_nonneg_left hl (by linarith : (0:ℚ) ≤ backoffBase pol i * (1/5))]
  · refine max_le (by nlinarith) ?_
    nlinarith [mul_le_mul_of_nonneg_left hu (by linarith : (0:ℚ) ≤ backoffBase pol i * (1/5))]

/-! ## Resolver branch lemmas -/

theorem resolve_hit (O : Upstream) (database_id : String) (s : RState)
    (c : CacheEntry) (h : dictGet s.cache database_id = some c) :
    resolve_database_id O database_id s
      = (.ok (c.data_source_id.getD database_id), s) := by
  simp [resolve_database_id, h]

theorem resolve_fetchFail (O : Upstream) (database_id : String) (s : RState)
    (e : PyErr) (h : dictGet s.cache database_id = none)
    (hr : O.retrieve s.fetches database_id = .error e) :
    resolve_database_id O database_id s
      = (.ok database_id, ⟨s.cache, s.fetches + 1⟩) := by
  simp [resolve_database_id, h, hr]

theorem resolve_noId (O : Upstream) (database_id : String) (s : RState)
    (db_info : DbInfo) (ds0 : DataSourceRef) (rest : List DataSourceRef)
    (h : dictGet s.cache database_id = none)
    (hr : O.retrieve s.fetches database_id = .ok db_info)
    (hds : db_info.data_sources = ds0 :: rest) (hid : ds0.id = none) :
    resolve_database_id O database_id s
      = (.ok database_id, ⟨s.cache, s.fetches + 1⟩) := by
  simp [resolve_database_id, h, hr, hds, hid]

theorem resolve_success (O : Upstream) (database_id : String) (s : RState)
    (db_info : DbInfo) (ds0 : DataSourceRef) (rest : List DataSourceRef)
    (dsid t : String) (h : dictGet s.cache database_id = none)
    (hr : O.retrieve s.fetches database_id = .ok db_info)
    (hds : db_info.data_sources = ds0 :: rest) (hid : ds0.id = some dsid)
    (ht : titleText db_info.title = .ok t) :
    resolve_database_id O database_id s
      = (.ok dsid,
         ⟨dictInsert database_id
            ⟨some database_id, some dsid, some (ds0.name.getD "Untitled"),
             some t, none⟩ s.cache,
          s.fetches + 1⟩) := by
  simp [resolve_database_id, h, hr, hds, hid, ht]

theorem resolve_titleErrSucc (O : Upstream) (database_id : String)
    (s : RState) (db_info : DbInfo) (ds0 : DataSourceRef)
    (rest : List DataSourceRef) (dsid : String) (e : PyErr)
    (h : dictGet s.cache database_id = none)
    (hr : O.retrieve s.fetches database_id = .ok db_info)
    (hds : db_info.data_sources = ds0 :: rest) (hid : ds0.id = some dsid)
    (ht : titleText db_info.title = .error e) :
    resolve_database_id O database_id s
      = (.ok database_id, ⟨s.cache, s.fetches + 1⟩) := by
  simp [resolve_database_id, h, hr, hds, hid, ht]

theorem resolve_degraded (O : Upstream) (database_id : String) (s : RState)
    (db_info : DbInfo) (t : String) (h : dictGet s.cache database_id = none)
    (hr : O.retrieve s.fetches database_id = .ok db_info)
    (hds : db_info.data_sources = []) (ht : titleText db_info.title = .ok t) :
    resolve_database_id O database_id s
      = (.ok database_id,
         ⟨dictInsert database_id
            ⟨some database_id, some database_id, none, some t, none⟩ s.cache,
          s.fetches + 1⟩) := by
  simp [resolve_database_id, h, hr, hds, ht]

theorem resolve_degradedTitleErr (O : Upstream) (database_id : String)
    (s : RState) (db_info : DbInfo) (e : PyErr)
    (h : dictGet s.cache database_id = none)
    (hr : O.retrieve s.fetches database_id = .ok db_info)
    (hds : db_info.data_sources = [])
    (ht : titleText db_info.title = .error e) :
    resolve_database_id O database_id s
      = (.ok database_id, ⟨s.cache, s.fetches + 1⟩) := by
  simp [resolve_database_id, h, hr, hds, ht]

theorem resolve_isOk (O : Upstream) (database_id : String) (s : RState) :
    ∃ r s', resolve_database_id O database_id s = (.ok r, s') := by
  cases h : dictGet s.cache database_id with
  | some c => exact ⟨_, _, resolve_hit O database_id s c h⟩
  | none =>
    cases hr : O.retrieve s.fetches database_id with
    | error e => exact ⟨_, _, resolve_fetchFail O database_id s e h hr⟩
    | ok db_info =>
      cases hds : db_info.data_sources with
      | nil =>
        cases ht : titleText db_info.title with
        | error e => exact ⟨_, _, resolve_degradedTitleErr O database_id s db_info e h hr hds ht⟩
        | ok t => exact ⟨_, _, resolve_degraded O database_id s db_info t h hr hds ht⟩
      | cons ds0 rest =>
        cases hid : ds0.id with
        | none => exact ⟨_, _, resolve_noId O database_id s db_info ds0 rest h hr hds hid⟩
        | some dsid =>
          cases ht : titleText db_info.title with
          | error e =>
            exact ⟨_, _, resolve_titleErrSucc O database_id s db_info ds0 rest dsid e h hr hds hid ht⟩
          | ok t =>
            exact ⟨_, _, resolve_success O database_id s db_info ds0 rest dsid t h hr hds hid ht⟩

/-- Case analysis on everything a `resolve_database_id` call can do to
the state: either the state is untouched, or (on a cache miss) the
fetch counter advances and at most one entry, under the requested key
and holding the returned id as its data-source id, is inserted. -/
theorem resolve_state_shape (O : Upstream) (database_id : String)
    (s : RState) :
    (resolve_database_id O database_id s).2 = s
    ∨ (dictGet s.cache database_id = none
       ∧ (resolve_database_id O database_id s).2.fetches = s.fetches + 1
       ∧ ((resolve_database_id O database_id s).2.cache = s.cache
          ∨ ∃ v : CacheEntry,
              (resolve_database_id O database_id s).2.cache
                = dictInsert database_id v s.cache
              ∧ resolve_database_id O database_id s
                  = (.ok (v.data_source_id.getD database_id),
                     (resolve_database_id O database_id s).2))) := by
  cases h : dictGet s.cache database_id with
  | some c => rw [resolve_hit O database_id s c h]; left; rfl
  | none =>
    right
    refine ⟨rfl, ?_⟩
    cases hr : O.retrieve s.fetches database_id with
    | error e => rw [resolve_fetchFail O database_id s e h hr]; exact ⟨rfl, .inl rfl⟩
    | ok db_info =>
      cases hds : db_info.data_sources with
      | nil =>
        cases ht : titleText db_info.title with
        | error e =>
          rw [resolve_degradedTitleErr O database_id s db_info e h hr hds ht]
          exact ⟨rfl, .inl rfl⟩
        | ok t =>
          rw [resolve_degraded O database_id s db_info t h hr hds ht]
          exact ⟨rfl, .inr ⟨_, rfl, rfl⟩⟩
      | cons ds0 rest =>
        cases hid : ds0.id with
        | none =>
          rw [resolve_noId O database_id s db_info ds0 rest h hr hds hid]
          exact ⟨rfl, .inl rfl⟩
        | some dsid =>
          cases ht : titleText db_info.title with
          | error e =>
            rw [resolve_titleErrSucc O database_id s db_info ds0 rest dsid e h hr hds hid ht]
            exact ⟨rfl, .inl rfl⟩
          | ok t =>
            rw [resolve_success O database_id s db_info ds0 rest dsid t h hr hds hid ht]
            exact ⟨rfl, .inr ⟨_, rfl, rfl⟩⟩

theorem infer_queryFail (O : Upstream) (ds : String) (s : RState) (e : PyErr)
    (hq : O.query s.fetches ds 5 = .error e) :
    infer_schema_from_pages O ds s = ([], ⟨s.cache, s.fetches + 1⟩) := by
  simp [infer_schema_from_pages, hq]

theorem infer_noPages (O : Upstream) (ds : String) (s : RState)
    (hq : O.query s.fetches ds 5 = .ok []) :
    infer_schema_from_pages O ds s = ([], ⟨s.cache, s.fetches + 1⟩) := by
  simp [infer_schema_from_pages, hq]

theorem infer_firstPage (O : Upstream) (ds : String) (s : RState)
    (p : Page) (ps : List Page) (hq : O.query s.fetches ds 5 = .ok (p :: ps)) :
    infer_schema_from_pages O ds s
      = (p.properties.map fun q => (q.1, ⟨q.2.id, q.2.type⟩),
         ⟨s.cache, s.fetches + 1⟩) := by
  by_cases hp : p.properties.isEmpty
  · have : p.properties = [] := by
      revert hp; cases p.properties <;> simp
    simp [infer_schema_from_pages, hq, hp, this]
  · simp [infer_schema_from_pages, hq, hp]

theorem infer_cache (O : Upstream) (ds : String) (s : RState) :
    (infer_schema_from_pages O ds s).2.cache = s.cache
    ∧ (infer_schema_from_pages O ds s).2.fetches = s.fetches + 1 := by
  cases hq : O.query s.fetches ds 5 with
  | error e => rw [infer_queryFail O ds s e hq]; exact ⟨rfl, rfl⟩
  | ok pages =>
    cases pages with
    | nil => rw [infer_noPages O ds s hq]; exact ⟨rfl, rfl⟩
    | cons p ps => rw [infer_firstPage O ds s p ps hq]; exact ⟨rfl, rfl⟩

theorem cacheProps_cached (database_id : String) (props : Schema)
    (s : RState) (c : CacheEntry) (h : dictGet s.cache database_id = some c) :
    cacheProps database_id props s
      = ⟨dictInsert database_id { c with properties := some props } s.cache,
         s.fetches⟩ := by
  simp [cacheProps, h]

theorem cacheProps_fresh (database_id : String) (props : Schema)
    (s : RState) (h : dictGet s.cache database_id = none) :
    cacheProps database_id props s
      = ⟨dictInsert database_id ⟨none, none, none, none, some props⟩ s.cache,
         s.fetches⟩ := by
  simp [cacheProps, h]

theorem cacheProps_shape (database_id : String) (props : Schema)
    (s : RState) :
    ∃ v : CacheEntry, v.properties = some props
      ∧ cacheProps database_id props s
          = ⟨dictInsert database_id v s.cache, s.fetches⟩ := by
  cases h : dictGet s.cache database_id with
  | some c =>
    exact ⟨{ c with properties := some props }, rfl,
           cacheProps_cached database_id props s c h⟩
  | none =>
    exact ⟨⟨none, none, none, none, some props⟩, rfl,
           cacheProps_fresh database_id props s h⟩

theorem schema_hit (O : Upstream) (database_id : String) (s : RState)
    (c : CacheEntry) (props : Schema)
    (h : dictGet s.cache database_id = some c)
    (hp : c.properties = some props) :
    get_database_schema O database_id s = (.ok props, s) := by
  simp [get_database_schema, h, hp]

theorem schema_uncached_of_none (O : Upstream) (database_id : String)
    (s : RState) (h : dictGet s.cache database_id = none) :
    get_database_schema O database_id s = getSchemaUncached O database_id s := by
  simp [get_database_schema, h]

theorem schema_uncached_of_noProps (O : Upstream) (database_id : String)
    (s : RState) (c : CacheEntry) (h : dictGet s.cache database_id = some c)
    (hp : c.properties = none) :
    get_database_schema O database_id s = getSchemaUncached O database_id s := by
  simp [get_database_schema, h, hp]

theorem uncached_fetchFail (O : Upstream) (database_id : String)
    (s s1 : RState) (sid : String) (e : PyErr)
    (hres : resolve_database_id O database_id s = (.ok sid, s1))
    (hr : O.retrieve s1.fetches database_id = .error e) :
    getSchemaUncached O database_id s = (.ok [], ⟨s1.cache, s1.fetches + 1⟩) := by
  simp [getSchemaUncached, hres, hr]

theorem uncached_props (O : Upstream) (database_id : String)
    (s s1 : RState) (sid : String) (db_info : DbInfo)
    (hres : resolve_database_id O database_id s = (.ok sid, s1))
    (hr : O.retrieve s1.fetches database_id = .ok db_info)
    (hp : db_info.properties.isEmpty = false) :
    getSchemaUncached O database_id s
      = (.ok db_info.properties,
         cacheProps database_id db_info.properties ⟨s1.cache, s1.fetches + 1⟩) := by
  simp [getSchemaUncached, hres, hr, hp]

theorem uncached_infer (O : Upstream) (database_id : String)
    (s s1 : RState) (sid : String) (db_info : DbInfo)
    (hres : resolve_database_id O database_id s = (.ok sid, s1))
    (hr : O.retrieve s1.fetches database_id = .ok db_info)
    (hp : db_info.properties = []) :
    getSchemaUncached O database_id s
      = (.ok (infer_schema_from_pages O sid ⟨s1.cache, s1.fetches + 1⟩).1,
         cacheProps database_id
           (infer_schema_from_pages O sid ⟨s1.cache, s1.fetches + 1⟩).1
           (infer_schema_from_pages O sid ⟨s1.cache, s1.fetches + 1⟩).2) := by
  simp [getSchemaUncached, hres, hr, hp]

theorem schema_isOk (O : Upstream) (database_id : String) (s : RState) :
    ∃ m s', get_database_schema O database_id s = (.ok m, s') := by
  have huncached : ∃ m s', getSchemaUncached O database_id s = (.ok m, s') := by
    obtain ⟨r, s1, hres⟩ := resolve_isOk O database_id s
    cases hr : O.retrieve s1.fetches database_id with
    | error e => exact ⟨_, _, uncached_fetchFail O database_id s s1 r e hres hr⟩
    | ok db_info =>
      by_cases hp : db_info.properties.isEmpty
      · have hnil : db_info.properties = [] := by
          revert hp; cases db_info.properties <;> simp
        exact ⟨_, _, uncached_infer O database_id s s1 r db_info hres hr hnil⟩
      · exact ⟨_, _, uncached_props O database_id s s1 r db_info hres hr
          (by revert hp; cases db_info.properties.isEmpty <;> simp)⟩
  cases h : dictGet s.cache database_id with
  | some c =>
    cases hp : c.properties with
    | some props => exact ⟨_, _, schema_hit O database_id s c props h hp⟩
    | none =>
      rw [schema_uncached_of_noProps O database_id s c h hp]
      exact huncached
  | none =>
    rw [schema_uncached_of_none O database_id s h]
    exact huncached

theorem resolve_preserves (O : Upstream) (id' id : String) (s : RState)
    (e : CacheEntry) (h : dictGet s.cache id = some e) :
    dictGet (resolve_database_id O id' s).2.cache id = some e := by
  rcases resolve_state_shape O id' s with heq | ⟨hmiss, _, hc | ⟨v, hc, _⟩⟩
  · rw [heq]; exact h
  · rw [hc]; exact h
  · have hne : id' ≠ id := by
      intro hx
      rw [hx, h] at hmiss
      exact Option.noConfusion hmiss
    rw [hc, dictGet_dictInsert_ne id' id v s.cache hne]
    exact h

theorem cacheProps_preserves (id' id : String) (props : Schema) (s : RState)
    (e : CacheEntry) (h : dictGet s.cache id = some e) :
    ∃ e', dictGet (cacheProps id' props s).cache id = some e'
      ∧ e'.data_source_id = e.data_source_id := by
  cases hc : dictGet s.cache id' with
  | some c =>
    rw [cacheProps_cached id' props s c hc]
    by_cases hne : id' = id
    · subst hne
      rw [hc] at h
      obtain rfl : c = e := Option.some.inj h
      exact ⟨{ c with properties := some props },
             dictGet_dictInsert_self id' _ s.cache, rfl⟩
    · rw [dictGet_dictInsert_ne id' id _ s.cache hne]
      exact ⟨e, h, rfl⟩
  | none =>
    rw [cacheProps_fresh id' props s hc]
    by_cases hne : id' = id
    · subst hne
      rw [hc] at h
      exact Option.noConfusion h
    · rw [dictGet_dictInsert_ne id' id _ s.cache hne]
      exact ⟨e, h, rfl⟩

theorem uncached_preserves (O : Upstream) (id' id : String) (s : RState)
    (e : CacheEntry) (h : dictGet s.cache id = some e) :
    ∃ e', dictGet (getSchemaUncached O id' s).2.cache id = some e'
      ∧ e'.data_source_id = e.data_source_id := by
  obtain ⟨r, s1, hres⟩ := resolve_isOk O id' s
  have h1 : dictGet s1.cache id = some e := by
    have := resolve_preserves O id' id s e h
    rw [hres] at this
    exact this
  cases hr : O.retrieve s1.fetches id' with
  | error err =>
    rw [uncached_fetchFail O id' s s1 r err hres hr]
    exact ⟨e, h1, rfl⟩
  | ok db_info =>
    by_cases hp : db_info.properties.isEmpty
    · have hnil : db_info.properties = [] := by
        revert hp; cases db_info.properties <;> simp
      rw [uncached_infer O id' s s1 r db_info hres hr hnil]
      have hic := infer_cache O r ⟨s1.cache, s1.fetches + 1⟩
      have h2 : dictGet (infer_schema_from_pages O r ⟨s1.cache, s1.fetches + 1⟩).2.cache id
          = some e := by rw [hic.1]; exact h1
      exact cacheProps_preserves id' id _ _ e h2
    · rw [uncached_props O id' s s1 r db_info hres hr
        (by revert hp; cases db_info.properties.isEmpty <;> simp)]
      exact cacheProps_preserves id' id _ ⟨s1.cache, s1.fetches + 1⟩ e h1

theorem schema_preserves (O : Upstream) (id' id : String) (s : RState)
    (e : CacheEntry) (h : dictGet s.cache id = some e) :
    ∃ e', dictGet (get_database_schema O id' s).2.cache id = some e'
      ∧ e'.data_source_id = e.data_source_id := by
  cases hc : dictGet s.cache id' with
  | some c =>
    cases hp : c.properties with
    | some props =>
      rw [schema_hit O id' s c props hc hp]
      exact ⟨e, h, rfl⟩
    | none =>
      rw [schema_uncached_of_noProps O id' s c hc hp]
      exact uncached_preserves O id' id s e h
  | none =>
    rw [schema_uncached_of_none O id' s hc]
    exact uncached_preserves O id' id s e h

theorem title_state_eq (O : Upstream) (database_id : String) (s : RState) :
    (get_title_property_name O database_id s).2
      = (get_database_schema O database_id s).2 := by
  obtain ⟨m, s', hs⟩ := schema_isOk O database_id s
  rw [hs]
  simp only [get_title_property_name, hs]
  cases m.find? (fun p => p.2.type == some "title") <;> rfl

/-! ## Claim theorems -/

/-- C1: for every retry policy and wrapped operation, the executor
invokes the operation at most `max_retries + 1` times; when every
attempt fails with a rate-limit error it ends by raising
`RateLimitError`; and when the first failure is not a rate-limit error
the operation is invoked exactly once with no retry sleep. -/
theorem C1_retry_attempt_bounds {α : Type} (pol : RetryPolicy)
    (op : Nat → Except PyErr α) (jit : Nat → ℚ) :
    countInvoke (with_retry pol op jit).1 ≤ pol.max_retries + 1
    ∧ ((∀ i, ∃ st b, op i = .error (.api st b) ∧ isRateLimitErr st b = true) →
        (with_retry pol op jit).2 = .error (.rateLimit rateLimitMsg))
    ∧ (∀ e, op 0 = .error e → errTakesRLBranch e = false →
        countInvoke (with_retry pol op jit).1 = 1
        ∧ delays (with_retry pol op jit).1 = []) := by
  refine ⟨countInvoke_go_le pol op jit _ 0, ?_, ?_⟩
  · intro H
    exact (go_allRL pol op jit H (pol.max_retries + 1) 0 (by omega) (by omega)).1
  · intro e h hnot
    unfold with_retry
    rw [withRetryGo_raise pol op jit 0 pol.max_retries e h hnot]
    exact ⟨rfl, rfl⟩

/-- C1 witness: the all-rate-limited operation `opRL` ends in
`RateLimitError`, and the non-rate-limited `opBoom` is invoked exactly
once with no sleeps. -/
theorem C1_witness :
    (with_retry polC3 opRL jit0).2 = .error (.rateLimit rateLimitMsg)
    ∧ countInvoke (with_retry polC3 opBoom jit0).1 = 1
    ∧ delays (with_retry polC3 opBoom jit0).1 = [] := by
  refine ⟨?_, ?_⟩
  · exact (C1_retry_attempt_bounds polC3 opRL jit0).2.1
      (fun i => ⟨500, "Rate_Limit reached", rfl, by decide⟩)
  · exact (C1_retry_attempt_bounds polC3 opBoom jit0).2.2
      (.other "boom") rfl rfl

/-- C2: exhausting all attempts on rate-limit errors raises the
distinct `RateLimitError`; a returned value is a value the operation
produced; and any other raised error is exactly an error the operation
raised — so the exhausted-rate-limit conversion is the only conversion
the executor performs. -/
theorem C2_error_conversion {α : Type} (pol : RetryPolicy)
    (op : Nat → Except PyErr α) (jit : Nat → ℚ) :
    ((∀ i, ∃ st b, op i = .error (.api st b) ∧ isRateLimitErr st b = true) →
        (with_retry pol op jit).2 = .error (.rateLimit rateLimitMsg))
    ∧ (∀ v, (with_retry pol op jit).2 = .ok v → ∃ i, op i = .ok v)
    ∧ (∀ e, (with_retry pol op jit).2 = .error e →
        e = .rateLimit rateLimitMsg ∨ ∃ i, op i = .error e) := by
  refine ⟨?_, ?_, ?_⟩
  · intro H
    exact (go_allRL pol op jit H (pol.max_retries + 1) 0 (by omega) (by omega)).1
  · exact (go_outcome_src pol op jit (pol.max_retries + 1) 0 (by omega)
      (by omega)).1
  · exact (go_outcome_src pol op jit (pol.max_retries + 1) 0 (by omega)
      (by omega)).2

/-- C2 witness: `opRL` exhausts into `RateLimitError`, and the error
raised by `opBoom` is traced back to the operation unchanged. -/
theorem C2_witness :
    (with_retry polC3 opRL jit0).2 = .error (.rateLimit rateLimitMsg)
    ∧ (PyErr.other "boom" = .rateLimit rateLimitMsg
       ∨ ∃ i, opBoom i = .error (.other "boom")) := by
  constructor
  · exact (C2_error_conversion polC3 opRL jit0).1
      (fun i => ⟨500, "Rate_Limit reached", rfl, by decide⟩)
  · exact (C2_error_conversion polC3 opBoom jit0).2.2 (.other "boom") rfl

/-- C3: every slept delay is the computed delay of some attempt `i` and,
for `jitter_factor = 0.2`, lies within
`[max 0 (base * 0.8), base * 1.2]` for `base = min(initial_delay * 2^i,
max_delay)` and any jitter draw in `[-1, 1]`; and the concrete
walkthrough (`max_retries=2, initial_delay=1, max_delay=8, jitter=0`,
rate limited twice then succeeding) makes exactly 3 attempts, sleeps
1.0 then 2.0 seconds, and returns the operation's value. -/
theorem C3_backoff_delays :
    (∀ (α : Type) (pol : RetryPolicy) (op : Nat → Except PyErr α)
        (jit : Nat → ℚ),
        pol.jitter_factor = 1/5 → 0 ≤ pol.initial_delay →
        0 ≤ pol.max_delay → (∀ i, -1 ≤ jit i ∧ jit i ≤ 1) →
        ∀ d ∈ delays (with_retry pol op jit).1,
          ∃ i, d = delayFor pol jit i
            ∧ max 0 (backoffBase pol i * (4/5)) ≤ d
            ∧ d ≤ backoffBase pol i * (6/5))
    ∧ (countInvoke (with_retry polC3 op2 jit0).1 = 3
       ∧ delays (with_retry polC3 op2 jit0).1 = [1, 2]
       ∧ (with_retry polC3 op2 jit0).2 = .ok 42) := by
  constructor
  · intro α pol op jit hj h1 h2 hjit d hd
    obtain ⟨i, hdi⟩ := go_delay_src pol op jit _ 0 d hd
    obtain ⟨hl, hu⟩ := delayFor_bounds pol jit i hj h1 h2 (hjit i).1 (hjit i).2
    exact ⟨i, hdi, by rw [hdi]; exact hl, by rw [hdi]; exact hu⟩
  · refine ⟨rfl, ?_, rfl⟩
    have hres : delays (with_retry polC3 op2 jit0).1
        = [delayFor polC3 jit0 0, delayFor polC3 jit0 1] := rfl
    have h0 : delayFor polC3 jit0 0 = 1 := by
      simp [delayFor, polC3, backoffBase]
    have h1 : delayFor polC3 jit0 1 = 2 := by
      simp [delayFor, polC3, backoffBase]
      norm_num
    rw [hres, h0, h1]

/-- C3 witness: the first slept delay of the default policy against an
always-rate-limited operation satisfies the jitter bounds. -/
theorem C3_witness :
    ∃ i, delayFor defaultPolicy jit0 0 = delayFor defaultPolicy jit0 i
      ∧ max 0 (backoffBase defaultPolicy i * (4/5))
          ≤ delayFor defaultPolicy jit0 0
      ∧ delayFor defaultPolicy jit0 0 ≤ backoffBase defaultPolicy i * (6/5) := by
  have hmem : delayFor defaultPolicy jit0 0
      ∈ delays (with_retry defaultPolicy opRL jit0).1 := by
    have hres : delays (with_retry defaultPolicy opRL jit0).1
        = [delayFor defaultPolicy jit0 0, delayFor defaultPolicy jit0 1,
           delayFor defaultPolicy jit0 2, delayFor defaultPolicy jit0 3] := rfl
    rw [hres]
    exact List.mem_cons_self _ _
  exact C3_backoff_delays.1 Nat defaultPolicy opRL jit0 rfl
    (by norm_num [defaultPolicy]) (by norm_num [defaultPolicy])
    (fun i => ⟨by norm_num [jit0], by norm_num [jit0]⟩)
    (delayFor defaultPolicy jit0 0) hmem

/-- C4: once a resolving call has cached an entry for a container ID,
repeating `resolve` for that ID returns the identical sub-resource ID
with the state (cache and fetch counter) untouched; and no normal
resolver operation ever changes the cached `data_source_id` of an
already-cached container ID. -/
theorem C4_resolve_idempotent :
    (∀ (O : Upstream) (database_id : String) (s : RState) (r : String)
        (s' : RState),
        dictGet s.cache database_id = none →
        resolve_database_id O database_id s = (.ok r, s') →
        (dictGet s'.cache database_id).isSome = true →
        resolve_database_id O database_id s' = (.ok r, s'))
    ∧ (∀ (O : Upstream) (op : ROp) (s : RState) (database_id : String)
        (e : CacheEntry),
        dictGet s.cache database_id = some e →
        ∃ e', dictGet (runOp O op s).cache database_id = some e'
          ∧ e'.data_source_id = e.data_source_id) := by
  constructor
  · intro O database_id s r s' hmiss hres hsome
    rcases resolve_state_shape O database_id s with heq | ⟨_, _, hc | ⟨v, hc, hval⟩⟩
    · rw [hres] at heq
      simp at heq
      rw [heq, hmiss] at hsome
      simp at hsome
    · rw [hres] at hc
      simp at hc
      rw [hc, hmiss] at hsome
      simp at hsome
    · rw [hres] at hc hval
      simp at hc hval
      have hget : dictGet s'.cache database_id = some v := by
        rw [hc]
        exact dictGet_dictInsert_self database_id v s.cache
      rw [resolve_hit O database_id s' v hget, hval]
  · intro O op s database_id e h
    cases op with
    | resolveOp id' => exact ⟨e, resolve_preserves O id' database_id s e h, rfl⟩
    | schemaOp id' => exact schema_preserves O id' database_id s e h
    | titleOp id' =>
      have hst := title_state_eq O id' s
      obtain ⟨e', he', hds⟩ := schema_preserves O id' database_id s e h
      exact ⟨e', by simpa [runOp, hst] using he', hds⟩

/-- C4 witness: resolving `db-1` against `Ogood` caches an entry, and
the repeated call returns the same id with the state unchanged; the
cached data-source id survives a further resolver operation. -/
theorem C4_witness :
    resolve_database_id Ogood "db-1" (resolve_database_id Ogood "db-1" s0).2
      = (.ok "ds-db-1", (resolve_database_id Ogood "db-1" s0).2)
    ∧ ∃ e', dictGet (runOp Ogood (.resolveOp "db-1")
          (resolve_database_id Ogood "db-1" s0).2).cache "db-1" = some e'
        ∧ e'.data_source_id
            = some "ds-db-1" := by
  constructor
  · exact C4_resolve_idempotent.1 Ogood "db-1" s0 "ds-db-1"
      (resolve_database_id Ogood "db-1" s0).2 rfl rfl rfl
  · exact C4_resolve_idempotent.2 Ogood (.resolveOp "db-1")
      (resolve_database_id Ogood "db-1" s0).2 "db-1"
      ⟨some "db-1", some "ds-db-1", some "Tasks", some "Untitled", none⟩ rfl

/-- C5: `resolve` and `get_schema` always return (no exception
escapes); when the metadata fetch fails on a cache miss `resolve`
returns the original container ID with the cache unchanged; and when
every metadata fetch for the ID fails (and no properties are cached)
`get_schema` returns the empty map. -/
theorem C5_resolver_degrades :
    (∀ (O : Upstream) (database_id : String) (s : RState),
        ∃ r s', resolve_database_id O database_id s = (.ok r, s'))
    ∧ (∀ (O : Upstream) (database_id : String) (s : RState),
        ∃ m s', get_database_schema O database_id s = (.ok m, s'))
    ∧ (∀ (O : Upstream) (database_id : String) (s : RState) (e : PyErr),
        dictGet s.cache database_id = none →
        O.retrieve s.fetches database_id = .error e →
        resolve_database_id O database_id s
          = (.ok database_id, ⟨s.cache, s.fetches + 1⟩))
    ∧ (∀ (O : Upstream) (database_id : String) (s : RState),
        (∀ n, ∃ e, O.retrieve n database_id = .error e) →
        (∀ c, dictGet s.cache database_id = some c → c.properties = none) →
        (get_database_schema O database_id s).1 = .ok []) := by
  refine ⟨resolve_isOk, schema_isOk, resolve_fetchFail, ?_⟩
  intro O database_id s Hfail Hnp
  cases hc : dictGet s.cache database_id with
  | none =>
    rw [schema_uncached_of_none O database_id s hc]
    obtain ⟨e1, hr1⟩ := Hfail s.fetches
    have hres := resolve_fetchFail O database_id s e1 hc hr1
    obtain ⟨e2, hr2⟩ := Hfail (s.fetches + 1)
    rw [uncached_fetchFail O database_id s ⟨s.cache, s.fetches + 1⟩
      database_id e2 hres hr2]
  | some c =>
    rw [schema_uncached_of_noProps O database_id s c hc (Hnp c hc)]
    obtain ⟨e2, hr2⟩ := Hfail s.fetches
    rw [uncached_fetchFail O database_id s s
      (c.data_source_id.getD database_id) e2 (resolve_hit O database_id s c hc)
      hr2]

/-- C5 witness: against the always-failing upstream, `resolve` returns
the container ID unchanged and `get_schema` returns the empty map. -/
theorem C5_witness :
    resolve_database_id Ofail "db-1" s0 = (.ok "db-1", ⟨[], 1⟩)
    ∧ (get_database_schema Ofail "db-1" s0).1 = .ok [] := by
  constructor
  · exact C5_resolver_degrades.2.2.1 Ofail "db-1" s0 (.other "boom") rfl rfl
  · exact C5_resolver_degrades.2.2.2 Ofail "db-1" s0
      (fun n => ⟨.other "boom", rfl⟩) (fun c hc => nomatch hc)

/-- C6: with empty container-level properties and no cached schema,
`get_schema` samples 5 items from the resolved sub-resource; zero
sampled items yield the empty map (no error), otherwise the schema is
the `{id, type}` map of the first item's properties; concretely,
`get_schema("db-2")` with 3 sampled pages returns exactly the `Name`
(title) and `Status` (status) entries. -/
theorem C6_schema_inference :
    (∀ (O : Upstream) (database_id : String) (s : RState) (sid : String)
        (s1 : RState) (db_info : DbInfo),
        (∀ c, dictGet s.cache database_id = some c → c.properties = none) →
        resolve_database_id O database_id s = (.ok sid, s1) →
        O.retrieve s1.fetches database_id = .ok db_info →
        db_info.properties = [] →
        ((O.query (s1.fetches + 1) sid 5 = .ok [] →
            (get_database_schema O database_id s).1 = .ok [])
         ∧ (∀ p ps, O.query (s1.fetches + 1) sid 5 = .ok (p :: ps) →
             (get_database_schema O database_id s).1
               = .ok (p.properties.map fun q => (q.1, ⟨q.2.id, q.2.type⟩)))))
    ∧ ((get_database_schema OC6 "db-2" s0).1
        = .ok [("Name", ⟨some "t1", some "title"⟩),
               ("Status", ⟨some "s1", some "status"⟩)]) := by
  constructor
  · intro O database_id s sid s1 db_info Hnp hres hr hp
    have key : get_database_schema O database_id s
        = getSchemaUncached O database_id s := by
      cases hc : dictGet s.cache database_id with
      | none => exact schema_uncached_of_none O database_id s hc
      | some c =>
        exact schema_uncached_of_noProps O database_id s c hc (Hnp c hc)
    rw [key, uncached_infer O database_id s s1 sid db_info hres hr hp]
    constructor
    · intro hq
      rw [infer_noPages O sid ⟨s1.cache, s1.fetches + 1⟩ hq]
    · intro p ps hq
      rw [infer_firstPage O sid ⟨s1.cache, s1.fetches + 1⟩ p ps hq]
  · rfl

/-- C6 witness: the general sampling branch applied to the concrete
`OC6` upstream reproduces the two-field schema. -/
theorem C6_witness :
    (get_database_schema OC6 "db-2" s0).1
      = .ok ((⟨[("Name", ⟨some "t1", some "title"⟩),
                ("Status", ⟨some "s1", some "status"⟩)]⟩ : Page).properties.map
          fun q => (q.1, ⟨q.2.id, q.2.type⟩)) := by
  exact (C6_schema_inference.1 OC6 "db-2" s0 "ds-2"
      ⟨[("db-2", ⟨some "db-2", some "ds-2", some "Untitled", some "Untitled",
         none⟩)], 1⟩
      ⟨[⟨some "ds-2", none⟩], none, []⟩
      (fun c hc => nomatch hc) rfl rfl rfl).2
    ⟨[("Name", ⟨some "t1", some "title"⟩),
      ("Status", ⟨some "s1", some "status"⟩)]⟩ [⟨[]⟩, ⟨[]⟩] rfl

/-- C7 counterexample: the upstream fetch succeeds and reports zero
sub-resources, yet nothing is cached — the database reports an
explicitly empty `title` array, so the title expression raises
`IndexError` before the cache assignment and the handler swallows it.
This refutes the claim that zero sub-resources always lead to the
container ID being cached. -/
theorem C7_counterexample :
    OC7.retrieve 0 "db-1" = .ok ⟨[], some [], []⟩
    ∧ resolve_database_id OC7 "db-1" s0 = (.ok "db-1", ⟨[], 1⟩)
    ∧ dictGet (resolve_database_id OC7 "db-1" s0).2.cache "db-1" = none := by
  exact ⟨rfl, rfl, rfl⟩

/-- C7 (amended): when the fetch succeeds with zero sub-resources and
the title expression evaluates (title key absent or non-empty array),
`resolve` caches the container ID itself as the sub-resource ID and
returns it; when the title expression raises, `resolve` still returns
the container ID without raising, but caches nothing. -/
theorem C7_degraded_resolution :
    ∀ (O : Upstream) (database_id : String) (s : RState) (db_info : DbInfo),
      dictGet s.cache database_id = none →
      O.retrieve s.fetches database_id = .ok db_info →
      db_info.data_sources = [] →
      ((∀ t, titleText db_info.title = .ok t →
          resolve_database_id O database_id s
            = (.ok database_id,
               ⟨dictInsert database_id
                  ⟨some database_id, some database_id, none, some t, none⟩
                  s.cache,
                s.fetches + 1⟩))
       ∧ (∀ e, titleText db_info.title = .error e →
          resolve_database_id O database_id s
            = (.ok database_id, ⟨s.cache, s.fetches + 1⟩))) := by
  intro O database_id s db_info h hr hds
  constructor
  · intro t ht
    exact resolve_degraded O database_id s db_info t h hr hds ht
  · intro e ht
    exact resolve_degradedTitleErr O database_id s db_info e h hr hds ht

/-- C7 witness: with the title key absent, the degraded resolution
caches the container ID under itself. -/
theorem C7_witness :
    resolve_database_id OC7b "db-1" s0
      = (.ok "db-1",
         ⟨dictInsert "db-1"
            ⟨some "db-1", some "db-1", none, some "Untitled", none⟩ [],
          1⟩) := by
  exact (C7_degraded_resolution OC7b "db-1" s0 ⟨[], none, []⟩ rfl rfl rfl).1
    "Untitled" rfl

/-- C8: both metrics counters are non-decreasing under every collector
operation; in every retry execution the api-call counter is bumped
exactly once per attempt and immediately before each invocation, and
the rate-limit counter exactly once per rate-limited failing
attempt. -/
theorem C8_metrics_accounting :
    (∀ (op : MOp) (m : MetricsCollector),
        m.notion_api_calls ≤ (mstep op m).notion_api_calls
        ∧ m.rate_limit_hits ≤ (mstep op m).rate_limit_hits)
    ∧ (∀ (α : Type) (pol : RetryPolicy) (op : Nat → Except PyErr α)
        (jit : Nat → ℚ),
        countCall (with_retry pol op jit).1
            = countInvoke (with_retry pol op jit).1
        ∧ (∀ n i, ((with_retry pol op jit).1)[n]? = some (.invokeOp i) →
            ∃ m, n = m + 1
              ∧ ((with_retry pol op jit).1)[m]? = some REvent.callMetric)
        ∧ countRL (with_retry pol op jit).1
            = (invokeIdxs (with_retry pol op jit).1).countP
                (fun i => opRLfail op i)) := by
  constructor
  · intro op m
    cases op <;> exact ⟨by simp [mstep], by simp [mstep]⟩
  · intro α pol op jit
    exact ⟨countCall_go_eq pol op jit _ 0,
           go_call_before_invoke pol op jit _ 0,
           countRL_go_eq pol op jit _ 0⟩

/-- C8 witness: in the concrete walkthrough trace the invocation at
position 1 is immediately preceded by the api-call increment. -/
theorem C8_witness :
    ∃ m, 1 = m + 1
      ∧ ((with_retry polC3 op2 jit0).1)[m]? = some REvent.callMetric := by
  exact (C8_metrics_accounting.2 Nat polC3 op2 jit0).2.1 1 0 rfl

/-- C9: on the resolved schema, `get_title_property_name` returns the
name of a title-typed field when one exists, and the fixed default
`"Name"` (without raising) when none does. -/
theorem C9_title_lookup :
    ∀ (O : Upstream) (database_id : String) (s : RState) (schema : Schema)
      (s1 : RState),
      get_database_schema O database_id s = (.ok schema, s1) →
      ((∃ p ∈ schema, p.2.type = some "title") →
          ∃ p ∈ schema, p.2.type = some "title"
            ∧ get_title_property_name O database_id s = (.ok p.1, s1))
      ∧ ((∀ p ∈ schema, p.2.type ≠ some "title") →
          get_title_property_name O database_id s = (.ok "Name", s1)) := by
  intro O database_id s schema s1 hs
  constructor
  · rintro ⟨p0, hp0, ht0⟩
    cases hf : schema.find? (fun p => p.2.type == some "title") with
    | none =>
      exfalso
      have := List.find?_eq_none.mp hf p0 hp0
      simp [ht0] at this
    | some q =>
      refine ⟨q, List.mem_of_find?_eq_some hf, ?_, ?_⟩
      · have := List.find?_some hf
        simpa using this
      · simp only [get_title_property_name, hs, hf]
  · intro Hall
    have hf : schema.find? (fun p => p.2.type == some "title") = none :=
      List.find?_eq_none.mpr (fun p hp => by simpa using Hall p hp)
    simp only [get_title_property_name, hs, hf]

/-- C9 witness: the inferred `OC6` schema yields the title field's own
name, and the title-free `ONoTitle` schema yields the default. -/
theorem C9_witness :
    (∃ p ∈ ([("Name", ⟨some "t1", some "title"⟩),
             ("Status", ⟨some "s1", some "status"⟩)] : Schema),
        p.2.type = some "title"
        ∧ get_title_property_name OC6 "db-2" s0
            = (.ok p.1, (get_database_schema OC6 "db-2" s0).2))
    ∧ get_title_property_name ONoTitle "db-3" s0
        = (.ok "Name", (get_database_schema ONoTitle "db-3" s0).2) := by
  constructor
  · exact (C9_title_lookup OC6 "db-2" s0
        [("Name", ⟨some "t1", some "title"⟩),
         ("Status", ⟨some "s1", some "status"⟩)]
        (get_database_schema OC6 "db-2" s0).2 rfl).1
      ⟨("Name", ⟨some "t1", some "title"⟩), by simp, rfl⟩
  · exact (C9_title_lookup ONoTitle "db-3" s0
        [("Status", ⟨some "s1", some "status"⟩)]
        (get_database_schema ONoTitle "db-3" s0).2 rfl).2 (by decide)

/-- C10 counterexample: the sampling query raises inside
`get_schema("db")`, yet the cache does change — the resolution entry is
added and the degraded empty map itself is stored under `properties` —
so the repeated call returns the negatively-cached empty map without
any fresh upstream fetch (identical state, fetch counter included).
This refutes the claim that a fetch failure leaves the cache
unchanged. -/
theorem C10_counterexample :
    OC10.query 2 "ds" 5 = .error (.other "boom")
    ∧ (get_database_schema OC10 "db" s0).1 = .ok []
    ∧ (get_database_schema OC10 "db" s0).2.cache ≠ s0.cache
    ∧ dictGet (get_database_schema OC10 "db" s0).2.cache "db"
        = some ⟨some "db", some "ds", some "Untitled", some "Untitled", some []⟩
    ∧ get_database_schema OC10 "db" (get_database_schema OC10 "db" s0).2
        = (.ok [], (get_database_schema OC10 "db" s0).2) := by
  refine ⟨rfl, rfl, by decide, rfl, rfl⟩

/-- C10 (amended): when the metadata retrieve raises inside `resolve`
the cache is left unchanged and nothing degraded is inserted; when the
retrieve at the top of `get_schema` raises, `get_schema` inserts
nothing itself (the empty map is not cached); but when the sampling
query raises during schema inference, the resulting empty map is cached
under `properties` like a successful result. -/
theorem C10_failure_caching :
    (∀ (O : Upstream) (database_id : String) (s : RState) (e : PyErr),
        dictGet s.cache database_id = none →
        O.retrieve s.fetches database_id = .error e →
        resolve_database_id O database_id s
          = (.ok database_id, ⟨s.cache, s.fetches + 1⟩))
    ∧ (∀ (O : Upstream) (database_id : String) (s : RState) (c : CacheEntry)
        (e : PyErr),
        dictGet s.cache database_id = some c → c.properties = none →
        O.retrieve s.fetches database_id = .error e →
        get_database_schema O database_id s
          = (.ok [], ⟨s.cache, s.fetches + 1⟩))
    ∧ (∀ (O : Upstream) (database_id : String) (s : RState) (c : CacheEntry)
        (ds : String) (db_info : DbInfo) (e : PyErr),
        dictGet s.cache database_id = some c → c.properties = none →
        c.data_source_id = some ds →
        O.retrieve s.fetches database_id = .ok db_info →
        db_info.properties = [] →
        O.query (s.fetches + 1) ds 5 = .error e →
        get_database_schema O database_id s
          = (.ok [],
             ⟨dictInsert database_id { c with properties := some [] } s.cache,
              s.fetches + 2⟩)) := by
  refine ⟨resolve_fetchFail, ?_, ?_⟩
  · intro O database_id s c e hc hp hr
    rw [schema_uncached_of_noProps O database_id s c hc hp]
    rw [uncached_fetchFail O database_id s s (c.data_source_id.getD database_id)
      e (resolve_hit O database_id s c hc) hr]
  · intro O database_id s c ds db_info e hc hp hds hr hpdb hq
    rw [schema_uncached_of_noProps O database_id s c hc hp]
    have hres := resolve_hit O database_id s c hc
    rw [hds] at hres
    simp only [Option.getD_some] at hres
    rw [uncached_infer O database_id s s ds db_info hres hr hpdb,
      infer_queryFail O ds ⟨s.cache, s.fetches + 1⟩ e hq]
    dsimp only
    rw [cacheProps_cached database_id [] ⟨s.cache, s.fetches + 1 + 1⟩ c hc]

/-- C10 witness: concrete instantiations of the amended failure-caching
behavior — a failing resolve leaves the cache unchanged, and a failing
sampling query caches the empty schema. -/
theorem C10_witness :
    resolve_database_id Ofail "db-1" s0 = (.ok "db-1", ⟨[], 1⟩)
    ∧ get_database_schema OC10 "db"
        ⟨[("db", ⟨some "db", some "ds", some "Untitled", some "Untitled",
           none⟩)], 1⟩
      = (.ok [],
         ⟨dictInsert "db"
            ⟨some "db", some "ds", some "Untitled", some "Untitled", some []⟩
            [("db", ⟨some "db", some "ds", some "Untitled", some "Untitled",
              none⟩)],
          3⟩) := by
  constructor
  · exact C10_failure_caching.1 Ofail "db-1" s0 (.other "boom") rfl rfl
  · exact C10_failure_caching.2.2 OC10 "db"
      ⟨[("db", ⟨some "db", some "ds", some "Untitled", some "Untitled",
         none⟩)], 1⟩
      ⟨some "db", some "ds", some "Untitled", some "Untitled", none⟩
      "ds" ⟨[⟨some "ds", none⟩], none, []⟩ (.other "boom")
      rfl rfl rfl rfl rfl rfl

end NotionBot
